import Mathlib

/-!
Shallow embedding of the Neto-style pricing engine
(`src/lib/pricing-engine.ts`) and proofs about it.

Numbers are modelled as rationals; `Math.round(x * 100) / 100` becomes
`round2`, and the ambient clock read by `new Date()` is passed explicitly
as a rational timestamp `now`.
-/

namespace Neto

/-- Two-decimal rounding, as in the source `Math.round(x * 100) / 100`
(`Math.round` rounds half toward positive infinity, i.e. `⌊y + 1/2⌋`). -/
def round2 (x : ℚ) : ℚ := (⌊x * 100 + 1/2⌋ : ℚ) / 100

/-- Character-level model of JavaScript `String.prototype.trim`:
drop leading and trailing whitespace. -/
def jsTrim (s : String) : String :=
  ⟨((s.data.dropWhile Char.isWhitespace).reverse.dropWhile Char.isWhitespace).reverse⟩

/-- Character-level model of JavaScript `String.prototype.toUpperCase`
(ASCII, which covers all promo codes in the registry). -/
def jsToUpper (s : String) : String := ⟨s.data.map Char.toUpper⟩

/-- Model of JavaScript `Number.prototype.toFixed(2)` for the nonnegative
amounts that appear in the promo registry: round to a whole number of
cents and print with exactly two decimal digits. -/
def toFixed2 (q : ℚ) : String :=
  let cents : ℤ := ⌊q * 100 + 1/2⌋
  let whole := cents / 100
  let frac := cents % 100
  toString whole ++ "." ++ (if frac < 10 then "0" ++ toString frac else toString frac)

def BULK_DISCOUNT_THRESHOLD : ℕ := 3
def BULK_DISCOUNT_PERCENTAGE : ℚ := 10
def MEMBER_DISCOUNT_PERCENTAGE : ℚ := 5
def FREE_SHIPPING_THRESHOLD : ℚ := 1000
def STANDARD_SHIPPING_COST : ℚ := 15
def DEFAULT_TAX_RATE : ℚ := 10

/-- The fields of `Product` the pricing engine reads: `price` and the
nullable `discount_percentage`. -/
structure Product where
  price : ℚ
  discount_percentage : Option ℚ
deriving DecidableEq

inductive DiscountType where
  | product
  | bulk
  | member
  | promo
deriving DecidableEq

structure DiscountBreakdown where
  type : DiscountType
  label : String
  percentage : ℚ
  amount : ℚ
deriving DecidableEq

structure PricingResult where
  originalPrice : ℚ
  finalPrice : ℚ
  discounts : List DiscountBreakdown
  totalDiscount : ℚ
deriving DecidableEq

structure ShippingResult where
  cost : ℚ
  isFreeShipping : Bool
  freeShippingThreshold : ℚ
deriving DecidableEq

structure TaxResult where
  rate : ℚ
  amount : ℚ
  label : String
deriving DecidableEq

inductive PromoDiscountType where
  | percentage
  | fixed
deriving DecidableEq

structure PromoCode where
  code : String
  discount_type : PromoDiscountType
  discount_value : ℚ
  min_order_amount : Option ℚ
  max_uses : Option ℕ
  current_uses : ℕ
  active : Bool
  expires_at : Option ℚ
deriving DecidableEq

/-- `PromoResult`: `error` is optional in the source (`error?: string`). -/
structure PromoResult where
  valid : Bool
  code : String
  discount_amount : ℚ
  error : Option String
deriving DecidableEq

/-- One element of the `items` array passed to `calculateCartSummary`. -/
structure CartItem where
  product : Product
  quantity : ℕ
deriving DecidableEq

/-- A cart item together with its computed pricing, as spread into the
result of `calculateCartSummary`. -/
structure PricedCartItem where
  product : Product
  quantity : ℕ
  pricing : PricingResult
deriving DecidableEq

structure CartSummary where
  items : List PricedCartItem
  subtotal : ℚ
  totalAfterDiscounts : ℚ
  totalDiscount : ℚ
  discounts : List DiscountBreakdown
  tax : TaxResult
  shipping : ShippingResult
  promoResult : Option PromoResult
  total : ℚ
  itemCount : ℕ
deriving DecidableEq

/-- Source `applyBulkDiscount`: 10% of the running subtotal once
`quantity >= BULK_DISCOUNT_THRESHOLD`, else 0. -/
def applyBulkDiscount (subtotal : ℚ) (quantity : ℕ) : ℚ :=
  if BULK_DISCOUNT_THRESHOLD ≤ quantity then subtotal * (BULK_DISCOUNT_PERCENTAGE / 100)
  else 0

/-- Source `applyMemberDiscount`: 5% of the running subtotal for
authenticated users, else 0. -/
def applyMemberDiscount (subtotal : ℚ) (isAuthenticated : Bool) : ℚ :=
  if isAuthenticated then subtotal * (MEMBER_DISCOUNT_PERCENTAGE / 100)
  else 0

/-- Source `calculateProductPrice`. The JavaScript guard
`product.discount_percentage && product.discount_percentage > 0` is the
match on the nullable field plus the positivity test; each subsequent
rule pushes a breakdown entry and subtracts the raw amount only when
that amount is strictly positive, exactly as in the source. -/
def calculateProductPrice (product : Product) (quantity : ℕ)
    (isAuthenticated : Bool) : PricingResult :=
  let originalPrice : ℚ := product.price * quantity
  let productStep : List DiscountBreakdown × ℚ :=
    match product.discount_percentage with
    | some pct =>
        if 0 < pct then
          let discountAmount := originalPrice * (pct / 100)
          ([{ type := DiscountType.product
            , label := toString pct ++ "% Product Discount"
            , percentage := pct
            , amount := round2 discountAmount }],
           originalPrice - discountAmount)
        else ([], originalPrice)
    | none => ([], originalPrice)
  let bulkDiscount := applyBulkDiscount productStep.2 quantity
  let bulkStep : List DiscountBreakdown × ℚ :=
    if 0 < bulkDiscount then
      (productStep.1 ++
        [{ type := DiscountType.bulk
         , label := toString BULK_DISCOUNT_PERCENTAGE ++ "% Bulk Discount (" ++
             toString BULK_DISCOUNT_THRESHOLD ++ "+ items)"
         , percentage := BULK_DISCOUNT_PERCENTAGE
         , amount := round2 bulkDiscount }],
       productStep.2 - bulkDiscount)
    else productStep
  let memberDiscount := applyMemberDiscount bulkStep.2 isAuthenticated
  let memberStep : List DiscountBreakdown × ℚ :=
    if 0 < memberDiscount then
      (bulkStep.1 ++
        [{ type := DiscountType.member
         , label := toString MEMBER_DISCOUNT_PERCENTAGE ++ "% Member Discount"
         , percentage := MEMBER_DISCOUNT_PERCENTAGE
         , amount := round2 memberDiscount }],
       bulkStep.2 - memberDiscount)
    else bulkStep
  let finalPrice := round2 memberStep.2
  { originalPrice := round2 originalPrice
  , finalPrice := finalPrice
  , discounts := memberStep.1
  , totalDiscount := round2 (originalPrice - finalPrice) }

/-- Source `calculateShipping`. -/
def calculateShipping (total : ℚ) : ShippingResult :=
  let isFreeShipping := decide (FREE_SHIPPING_THRESHOLD < total)
  { cost := if isFreeShipping then 0 else STANDARD_SHIPPING_COST
  , isFreeShipping := isFreeShipping
  , freeShippingThreshold := FREE_SHIPPING_THRESHOLD }

/-- Source `calculateTax`; the TypeScript default argument
`taxRate = DEFAULT_TAX_RATE` is passed explicitly at the call site. -/
def calculateTax (amount : ℚ) (taxRate : ℚ) : TaxResult :=
  { rate := taxRate
  , amount := round2 (amount * (taxRate / 100))
  , label := "GST (" ++ toString taxRate ++ "%)" }

/-- The built-in demo promo registry, verbatim from the source. -/
def PROMO_CODES : List PromoCode :=
  [ { code := "SAVE10"
    , discount_type := PromoDiscountType.percentage
    , discount_value := 10
    , min_order_amount := some 50
    , max_uses := none
    , current_uses := 0
    , active := true
    , expires_at := none }
  , { code := "FLAT20"
    , discount_type := PromoDiscountType.fixed
    , discount_value := 20
    , min_order_amount := some 100
    , max_uses := some 100
    , current_uses := 12
    , active := true
    , expires_at := none }
  , { code := "WELCOME15"
    , discount_type := PromoDiscountType.percentage
    , discount_value := 15
    , min_order_amount := none
    , max_uses := some 1
    , current_uses := 0
    , active := true
    , expires_at := none } ]

/-- The source expiry test `promo.expires_at && new Date(promo.expires_at)
< new Date()`, with the clock passed as `now`. -/
def promoExpired (expiry : Option ℚ) (now : ℚ) : Bool :=
  match expiry with
  | some e => decide (e < now)
  | none => false

/-- The source usage test `promo.max_uses !== null && promo.current_uses
>= promo.max_uses`. -/
def usageLimitReached (maxUses : Option ℕ) (currentUses : ℕ) : Bool :=
  match maxUses with
  | some m => decide (m ≤ currentUses)
  | none => false

/-- The valid branch of `applyPromoCode`: percentage promos round the
computed amount to two decimals, fixed promos are capped at the order
total via `Math.min`. -/
def promoValidResult (promo : PromoCode) (normalized : String)
    (orderTotal : ℚ) : PromoResult :=
  let discount_amount :=
    match promo.discount_type with
    | PromoDiscountType.percentage => round2 (orderTotal * (promo.discount_value / 100))
    | PromoDiscountType.fixed => min promo.discount_value orderTotal
  { valid := true, code := normalized, discount_amount := discount_amount, error := none }

/-- Source `applyPromoCode`: normalize the code, look it up in the
registry, run the guard checks in source order, else produce the valid
result. -/
def applyPromoCode (code : String) (orderTotal : ℚ) (now : ℚ) : PromoResult :=
  let normalized := jsToUpper (jsTrim code)
  match PROMO_CODES.find? (fun p => p.code == normalized) with
  | none =>
      { valid := false, code := normalized, discount_amount := 0
      , error := some "Invalid promo code" }
  | some promo =>
      if promo.active = false then
        { valid := false, code := normalized, discount_amount := 0
        , error := some "This promo code is no longer active" }
      else if promoExpired promo.expires_at now then
        { valid := false, code := normalized, discount_amount := 0
        , error := some "This promo code has expired" }
      else if usageLimitReached promo.max_uses promo.current_uses then
        { valid := false, code := normalized, discount_amount := 0
        , error := some "This promo code has reached its usage limit" }
      else
        match promo.min_order_amount with
        | some minAmount =>
            if orderTotal < minAmount then
              { valid := false, code := normalized, discount_amount := 0
              , error := some ("Minimum order of $" ++ toFixed2 minAmount ++ " required") }
            else promoValidResult promo normalized orderTotal
        | none => promoValidResult promo normalized orderTotal

/-- Source `calculateCartSummary`. The optional `promoCode` parameter is
an `Option String`; the JavaScript truthiness test `if (promoCode)` also
rejects the empty string. -/
def calculateCartSummary (items : List CartItem) (isAuthenticated : Bool)
    (promoCode : Option String) (now : ℚ) : CartSummary :=
  let itemPricings : List PricedCartItem := items.map (fun item =>
    { product := item.product
    , quantity := item.quantity
    , pricing := calculateProductPrice item.product item.quantity isAuthenticated })
  let subtotal := (itemPricings.map (fun i => i.pricing.originalPrice)).sum
  let lineDiscounts := (itemPricings.map (fun i => i.pricing.discounts)).flatten
  let totalAfterLineDiscounts := (itemPricings.map (fun i => i.pricing.finalPrice)).sum
  let promoStep : Option PromoResult × List DiscountBreakdown × ℚ :=
    match promoCode with
    | some c =>
        if c = "" then (none, lineDiscounts, totalAfterLineDiscounts)
        else
          let promoResult := applyPromoCode c totalAfterLineDiscounts now
          if promoResult.valid then
            (some promoResult,
             lineDiscounts ++
               [{ type := DiscountType.promo
                , label := "Promo: " ++ promoResult.code
                , percentage := 0
                , amount := promoResult.discount_amount }],
             totalAfterLineDiscounts - promoResult.discount_amount)
          else (some promoResult, lineDiscounts, totalAfterLineDiscounts)
    | none => (none, lineDiscounts, totalAfterLineDiscounts)
  let totalAfterDiscounts := promoStep.2.2
  let tax := calculateTax totalAfterDiscounts DEFAULT_TAX_RATE
  let shipping := calculateShipping totalAfterDiscounts
  let total := round2 (totalAfterDiscounts + tax.amount + shipping.cost)
  { items := itemPricings
  , subtotal := round2 subtotal
  , totalAfterDiscounts := round2 totalAfterDiscounts
  , totalDiscount := round2 (subtotal - totalAfterDiscounts)
  , discounts := promoStep.2.1
  , tax := tax
  , shipping := shipping
  , promoResult := promoStep.1
  , total := total
  , itemCount := (items.map (fun i => i.quantity)).sum }

end Neto

namespace Neto

/-- The quantity-scaled price before any discount, the source's
`originalPrice = product.price * quantity`. -/
def originalPriceOf (product : Product) (quantity : ℕ) : ℚ :=
  product.price * quantity

/-- The raw (unrounded) amount subtracted by rule 1 of
`calculateProductPrice`: `originalPrice * (discount_percentage / 100)`
when the nullable percentage is present and positive, else 0. -/
def rawProductDiscount (product : Product) (quantity : ℕ) : ℚ :=
  match product.discount_percentage with
  | some pct => if 0 < pct then originalPriceOf product quantity * (pct / 100) else 0
  | none => 0

/-- The running price (`currentPrice`) after rule 1 of
`calculateProductPrice`. -/
def priceAfterProduct (product : Product) (quantity : ℕ) : ℚ :=
  originalPriceOf product quantity - rawProductDiscount product quantity

/-- The raw bulk discount rule 2 computes: 10% of the running price left
by rule 1, when `quantity ≥ 3`. -/
def rawBulkDiscount (product : Product) (quantity : ℕ) : ℚ :=
  applyBulkDiscount (priceAfterProduct product quantity) quantity

/-- The running price after rule 2; the source subtracts the bulk amount
only under its `bulkDiscount > 0` guard. -/
def priceAfterBulk (product : Product) (quantity : ℕ) : ℚ :=
  if 0 < rawBulkDiscount product quantity then
    priceAfterProduct product quantity - rawBulkDiscount product quantity
  else priceAfterProduct product quantity

/-- The raw member discount rule 3 computes: 5% of the running price left
by rules 1 and 2, for authenticated users. -/
def rawMemberDiscount (product : Product) (quantity : ℕ) (isAuthenticated : Bool) : ℚ :=
  applyMemberDiscount (priceAfterBulk product quantity) isAuthenticated

/-- The running price after rule 3, the value the source rounds into
`finalPrice`. -/
def priceAfterMember (product : Product) (quantity : ℕ) (isAuthenticated : Bool) : ℚ :=
  if 0 < rawMemberDiscount product quantity isAuthenticated then
    priceAfterBulk product quantity - rawMemberDiscount product quantity isAuthenticated
  else priceAfterBulk product quantity

/-- The breakdown entry list produced by rule 1 (empty when the rule does
not fire); the reported amount is the raw amount rounded to 2 decimals. -/
def productDiscountEntries (product : Product) (quantity : ℕ) : List DiscountBreakdown :=
  match product.discount_percentage with
  | some pct =>
      if 0 < pct then
        [{ type := DiscountType.product
         , label := toString pct ++ "% Product Discount"
         , percentage := pct
         , amount := round2 (originalPriceOf product quantity * (pct / 100)) }]
      else []
  | none => []

/-- The breakdown entry list produced by rule 2. -/
def bulkDiscountEntries (product : Product) (quantity : ℕ) : List DiscountBreakdown :=
  if 0 < rawBulkDiscount product quantity then
    [{ type := DiscountType.bulk
     , label := toString BULK_DISCOUNT_PERCENTAGE ++ "% Bulk Discount (" ++
         toString BULK_DISCOUNT_THRESHOLD ++ "+ items)"
     , percentage := BULK_DISCOUNT_PERCENTAGE
     , amount := round2 (rawBulkDiscount product quantity) }]
  else []

/-- The breakdown entry list produced by rule 3. -/
def memberDiscountEntries (product : Product) (quantity : ℕ)
    (isAuthenticated : Bool) : List DiscountBreakdown :=
  if 0 < rawMemberDiscount product quantity isAuthenticated then
    [{ type := DiscountType.member
     , label := toString MEMBER_DISCOUNT_PERCENTAGE ++ "% Member Discount"
     , percentage := MEMBER_DISCOUNT_PERCENTAGE
     , amount := round2 (rawMemberDiscount product quantity isAuthenticated) }]
  else []

/-- The four guard checks of promo validation (after the registry lookup),
in specification order; each check yields the structured failure it
produces, or `none` if it passes. -/
def promoFailureChecks (promo : PromoCode) (normalized : String)
    (orderTotal now : ℚ) : List (Option PromoResult) :=
  [ if promo.active = false then
      some { valid := false, code := normalized, discount_amount := 0
           , error := some "This promo code is no longer active" }
    else none
  , match promo.expires_at with
    | some expiry =>
        if expiry < now then
          some { valid := false, code := normalized, discount_amount := 0
               , error := some "This promo code has expired" }
        else none
    | none => none
  , match promo.max_uses with
    | some maxUses =>
        if maxUses ≤ promo.current_uses then
          some { valid := false, code := normalized, discount_amount := 0
               , error := some "This promo code has reached its usage limit" }
        else none
    | none => none
  , match promo.min_order_amount with
    | some minAmount =>
        if orderTotal < minAmount then
          some { valid := false, code := normalized, discount_amount := 0
               , error := some ("Minimum order of $" ++ toFixed2 minAmount ++ " required") }
        else none
    | none => none ]

/-- Specification-side promo validation, written from the spec's numbered
list: trim and uppercase the code, look it up (unknown codes fail with
"Invalid promo code"), then return the FIRST failing check of
`promoFailureChecks`, else the valid result (percentage amounts rounded
to 2 decimals, fixed amounts capped at the order total). -/
def applyPromoCodeSpec (code : String) (orderTotal : ℚ) (now : ℚ) : PromoResult :=
  let normalized := jsToUpper (jsTrim code)
  match PROMO_CODES.find? (fun p => p.code == normalized) with
  | none =>
      { valid := false, code := normalized, discount_amount := 0
      , error := some "Invalid promo code" }
  | some promo =>
      ((promoFailureChecks promo normalized orderTotal now).filterMap id).headD
        (match promo.discount_type with
         | PromoDiscountType.percentage =>
             { valid := true, code := normalized
             , discount_amount := round2 (orderTotal * (promo.discount_value / 100))
             , error := none }
         | PromoDiscountType.fixed =>
             { valid := true, code := normalized
             , discount_amount := min promo.discount_value orderTotal
             , error := none })

end Neto

namespace Neto

lemma round2_intCast_div (m : ℤ) : round2 ((m : ℚ) / 100) = (m : ℚ) / 100 := by
  unfold round2
  have h : ((m : ℚ) / 100) * 100 + 1/2 = 1/2 + (m : ℚ) := by ring
  rw [h, Int.floor_add_int]
  norm_num

lemma round2_round2 (x : ℚ) : round2 (round2 x) = round2 x :=
  round2_intCast_div ⌊x * 100 + 1/2⌋

lemma round2_sub_round2 (x y : ℚ) : round2 (x - round2 y) = round2 x - round2 y := by
  unfold round2
  have h : (x - (⌊y * 100 + 1/2⌋ : ℚ) / 100) * 100 + 1/2 =
      (x * 100 + 1/2) - (⌊y * 100 + 1/2⌋ : ℤ) := by ring
  rw [h, Int.floor_sub_int]
  push_cast
  ring

lemma round2_mono {x y : ℚ} (h : x ≤ y) : round2 x ≤ round2 y := by
  unfold round2
  have h1 : x * 100 + 1/2 ≤ y * 100 + 1/2 := by linarith
  have h2 := Int.floor_le_floor h1
  have h3 : ((⌊x * 100 + 1/2⌋ : ℤ) : ℚ) ≤ ((⌊y * 100 + 1/2⌋ : ℤ) : ℚ) := by
    exact_mod_cast h2
  linarith

/-- The monolithic `calculateProductPrice` agrees with its step-by-step
description: running prices `originalPriceOf → priceAfterProduct →
priceAfterBulk → priceAfterMember` (raw, unrounded subtraction), entry
lists concatenated in rule order with individually rounded amounts, and
rounding of the totals only at the very end. -/
lemma calculateProductPrice_eq (product : Product) (quantity : ℕ)
    (isAuthenticated : Bool) :
    calculateProductPrice product quantity isAuthenticated =
      { originalPrice := round2 (originalPriceOf product quantity)
      , finalPrice := round2 (priceAfterMember product quantity isAuthenticated)
      , discounts := productDiscountEntries product quantity ++
          bulkDiscountEntries product quantity ++
          memberDiscountEntries product quantity isAuthenticated
      , totalDiscount := round2 (originalPriceOf product quantity -
          round2 (priceAfterMember product quantity isAuthenticated)) } := by
  obtain ⟨price, dp⟩ := product
  simp only [calculateProductPrice, originalPriceOf, rawProductDiscount, priceAfterProduct,
    rawBulkDiscount, priceAfterBulk, rawMemberDiscount, priceAfterMember,
    productDiscountEntries, bulkDiscountEntries, memberDiscountEntries]
  rcases dp with _ | pct
  · simp only [sub_zero]
    split_ifs <;> simp_all
  · by_cases hpct : 0 < pct
    · simp only [if_pos hpct]
      split_ifs <;> simp_all
    · simp only [if_neg hpct, sub_zero]
      split_ifs <;> simp_all

lemma step_le (x d : ℚ) : (if 0 < d then x - d else x) ≤ x := by
  split_ifs with h
  · linarith
  · exact le_rfl

lemma priceAfterBulk_le (product : Product) (quantity : ℕ) :
    priceAfterBulk product quantity ≤ priceAfterProduct product quantity :=
  step_le _ _

lemma priceAfterMember_le (product : Product) (quantity : ℕ) (isAuthenticated : Bool) :
    priceAfterMember product quantity isAuthenticated ≤ priceAfterBulk product quantity :=
  step_le _ _

lemma rawProductDiscount_nonneg (product : Product) (quantity : ℕ)
    (hprice : 0 ≤ product.price)
    (hdp : ∀ pct, product.discount_percentage = some pct → 0 ≤ pct) :
    0 ≤ rawProductDiscount product quantity := by
  unfold rawProductDiscount originalPriceOf
  rcases hh : product.discount_percentage with _ | pct
  · exact le_rfl
  · have hp := hdp pct hh
    dsimp only
    split_ifs with h
    · exact mul_nonneg (mul_nonneg hprice (Nat.cast_nonneg _)) (div_nonneg hp (by norm_num))
    · exact le_rfl

lemma priceAfterProduct_le (product : Product) (quantity : ℕ)
    (hprice : 0 ≤ product.price)
    (hdp : ∀ pct, product.discount_percentage = some pct → 0 ≤ pct) :
    priceAfterProduct product quantity ≤ originalPriceOf product quantity :=
  sub_le_self _ (rawProductDiscount_nonneg product quantity hprice hdp)

lemma promo_registry_no_expiry : ∀ p ∈ PROMO_CODES, p.expires_at = none := by decide

/-- Because every registry entry has a null `expires_at`, promo validation
does not depend on the ambient clock. -/
lemma applyPromoCode_now_independent (code : String) (orderTotal now₁ now₂ : ℚ) :
    applyPromoCode code orderTotal now₁ = applyPromoCode code orderTotal now₂ := by
  simp only [applyPromoCode]
  cases hf : PROMO_CODES.find? (fun p => p.code == jsToUpper (jsTrim code)) with
  | none => rfl
  | some promo =>
      have hexp : promo.expires_at = none :=
        promo_registry_no_expiry promo (List.mem_of_find?_eq_some hf)
      simp [hexp, promoExpired]

end Neto

namespace Neto

/-- C1: for every product, quantity, and authentication flag,
`calculateProductPrice` applies discounts in the strict order product →
bulk → member, each step computing its percentage of the running price
left by the prior steps (`priceAfterProduct`, `priceAfterBulk`,
`priceAfterMember`) and subtracting the unrounded amount internally;
breakdown entries report amounts rounded to 2 decimals for display only,
and total rounding happens only at the end on `originalPrice` and
`finalPrice`. -/
theorem C1_pricing_sequential_rounding (product : Product) (quantity : ℕ)
    (isAuthenticated : Bool) :
    (calculateProductPrice product quantity isAuthenticated).originalPrice =
        round2 (originalPriceOf product quantity) ∧
    (calculateProductPrice product quantity isAuthenticated).finalPrice =
        round2 (priceAfterMember product quantity isAuthenticated) ∧
    (calculateProductPrice product quantity isAuthenticated).discounts =
        productDiscountEntries product quantity ++ bulkDiscountEntries product quantity ++
          memberDiscountEntries product quantity isAuthenticated ∧
    (calculateProductPrice product quantity isAuthenticated).totalDiscount =
        round2 (originalPriceOf product quantity -
          round2 (priceAfterMember product quantity isAuthenticated)) := by
  rw [calculateProductPrice_eq]
  exact ⟨rfl, rfl, rfl, rfl⟩

/-- C2: for every list of cart lines, authentication flag, and optional
promo code, `calculateCartSummary` validates the promo code against the
sum of per-line `finalPrice`s, subtracts a valid promo's amount from that
sum, computes tax and shipping independently from the same resulting
base, and returns `total = round2(totalAfterDiscounts + tax.amount +
shipping.cost)` and `itemCount = Σ quantity`. (A supplied empty-string
code is rejected by the source's truthiness test and treated as no code.) -/
theorem C2_cart_summary_pipeline (items : List CartItem) (isAuthenticated : Bool)
    (promoCode : Option String) (now : ℚ) :
    let base := (items.map (fun item =>
      (calculateProductPrice item.product item.quantity isAuthenticated).finalPrice)).sum
    let pr : Option PromoResult :=
      match promoCode with
      | some c => if c = "" then none else some (applyPromoCode c base now)
      | none => none
    let deduction : ℚ :=
      match pr with
      | some r => if r.valid then r.discount_amount else 0
      | none => 0
    let base2 := base - deduction
    let s := calculateCartSummary items isAuthenticated promoCode now
    s.promoResult = pr ∧
    s.totalAfterDiscounts = round2 base2 ∧
    s.tax = calculateTax base2 DEFAULT_TAX_RATE ∧
    s.shipping = calculateShipping base2 ∧
    s.total = round2 (base2 + (calculateTax base2 DEFAULT_TAX_RATE).amount +
      (calculateShipping base2).cost) ∧
    s.itemCount = (items.map (fun item => item.quantity)).sum := by
  simp only [calculateCartSummary, List.map_map]
  cases promoCode with
  | none => simp [Function.comp_def]
  | some c =>
      by_cases hc : c = ""
      · simp [hc, Function.comp_def]
      · simp only [if_neg hc, Function.comp_def]
        by_cases hv : (applyPromoCode c ((items.map (fun item =>
            (calculateProductPrice item.product item.quantity isAuthenticated).finalPrice)).sum) now).valid
        · simp [hv, Function.comp_def]
        · simp [hv, Function.comp_def]

/-- C3 counterexample: with price $100, product discount 10%, quantity 3
and authenticated, `calculateProductPrice` multiplies price by quantity
first (`originalPrice = 300`), so `finalPrice` is 230.85, not the claimed
76.95. -/
theorem C3_finalPrice_counterexample :
    (calculateProductPrice ⟨100, some 10⟩ 3 true).finalPrice = 230.85 ∧
    (calculateProductPrice ⟨100, some 10⟩ 3 true).finalPrice ≠ 76.95 := by
  norm_num [calculateProductPrice, applyBulkDiscount, applyMemberDiscount,
    BULK_DISCOUNT_THRESHOLD, BULK_DISCOUNT_PERCENTAGE, MEMBER_DISCOUNT_PERCENTAGE, round2]

/-- C3 amended: for that cart line the engine computes `originalPrice =
100 × 3 = 300`, then step1 (product 10% of 300 = 30) → 270, step2 (bulk
10% of 270 = 27) → 243, step3 (member 5% of 243 = 12.15) → 230.85, and
returns `finalPrice = 230.85` (three times the per-unit 76.95). -/
theorem C3_amended_trace :
    (calculateProductPrice ⟨100, some 10⟩ 3 true).originalPrice = 300 ∧
    (calculateProductPrice ⟨100, some 10⟩ 3 true).discounts.map (fun d => d.type) =
      [DiscountType.product, DiscountType.bulk, DiscountType.member] ∧
    (calculateProductPrice ⟨100, some 10⟩ 3 true).discounts.map (fun d => d.percentage) =
      [10, 10, 5] ∧
    (calculateProductPrice ⟨100, some 10⟩ 3 true).discounts.map (fun d => d.amount) =
      [30, 27, 12.15] ∧
    (calculateProductPrice ⟨100, some 10⟩ 3 true).finalPrice = 230.85 ∧
    (calculateProductPrice ⟨100, some 10⟩ 3 true).totalDiscount = 69.15 := by
  norm_num [calculateProductPrice, applyBulkDiscount, applyMemberDiscount,
    BULK_DISCOUNT_THRESHOLD, BULK_DISCOUNT_PERCENTAGE, MEMBER_DISCOUNT_PERCENTAGE, round2]

/-- C4 counterexample: `applyPromoCode "FLAT20" 15` is NOT valid — the
registry entry for FLAT20 carries `min_order_amount = 100`, so the $15
order fails the minimum-order check and no discount is applied. -/
theorem C4_flat20_at_15_counterexample :
    (applyPromoCode "FLAT20" 15 0).valid = false ∧
    (applyPromoCode "FLAT20" 15 0).discount_amount = 0 ∧
    (applyPromoCode "FLAT20" 15 0).error = some "Minimum order of $100.00 required" := by
  have hfind : PROMO_CODES.find? (fun p => p.code == jsToUpper (jsTrim "FLAT20")) =
      some { code := "FLAT20"
           , discount_type := PromoDiscountType.fixed
           , discount_value := 20
           , min_order_amount := some 100
           , max_uses := some 100
           , current_uses := 12
           , active := true
           , expires_at := none } := rfl
  have htf : toFixed2 100 = "100.00" := by
    have hc : (⌊(100 : ℚ) * 100 + 1/2⌋ : ℤ) = 10000 := by norm_num
    simp only [toFixed2, hc]
    rfl
  simp only [applyPromoCode, hfind]
  norm_num [promoExpired, usageLimitReached, htf]
  rfl

/-- C4 amended: `applyPromoCode("FLAT20", 15)` returns an invalid result
with `discount_amount = 0` and error "Minimum order of $100.00 required",
because FLAT20 has `min_order_amount = 100`; once the minimum is met
(e.g. order total 100) the fixed $20 discount is `min(value, orderTotal)`
and hence never exceeds the order total. -/
theorem C4_flat20_min_order_amended (now : ℚ) :
    applyPromoCode "FLAT20" 15 now =
      { valid := false, code := "FLAT20", discount_amount := 0
      , error := some "Minimum order of $100.00 required" } ∧
    applyPromoCode "FLAT20" 100 now =
      { valid := true, code := "FLAT20", discount_amount := 20, error := none } := by
  have hfind : PROMO_CODES.find? (fun p => p.code == jsToUpper (jsTrim "FLAT20")) =
      some { code := "FLAT20"
           , discount_type := PromoDiscountType.fixed
           , discount_value := 20
           , min_order_amount := some 100
           , max_uses := some 100
           , current_uses := 12
           , active := true
           , expires_at := none } := rfl
  have htf : toFixed2 100 = "100.00" := by
    have hc : (⌊(100 : ℚ) * 100 + 1/2⌋ : ℤ) = 10000 := by norm_num
    simp only [toFixed2, hc]
    rfl
  constructor
  · simp only [applyPromoCode, hfind]
    norm_num [promoExpired, usageLimitReached, htf]
    exact ⟨rfl, rfl⟩
  · simp only [applyPromoCode, hfind]
    norm_num [promoExpired, usageLimitReached, promoValidResult]
    rfl

end Neto

namespace Neto

/-- C5 counterexample: authenticated purchase of a product with a 100%
product discount — the running price after the product rule is 0, the
member amount `0 × 5% = 0` fails the source's `memberDiscount > 0`
guard, and the result contains NO member entry (only the product entry),
refuting "for every product ... a member-kind entry is present". -/
theorem C5_member_entry_counterexample :
    (calculateProductPrice ⟨100, some 100⟩ 1 true).discounts.map (fun d => d.type) =
      [DiscountType.product] := by
  norm_num [calculateProductPrice, applyBulkDiscount, applyMemberDiscount,
    BULK_DISCOUNT_THRESHOLD, BULK_DISCOUNT_PERCENTAGE, MEMBER_DISCOUNT_PERCENTAGE, round2]

/-- C5 amended: for every product and quantity, whenever
`authenticated = true` AND the running price left after the product and
bulk discounts is strictly positive, the result ends with a member-kind
entry with `percentage = 5` whose amount is 5% of that running price
(rounded for display). -/
theorem C5_member_entry_amended (product : Product) (quantity : ℕ)
    (h : 0 < priceAfterBulk product quantity) :
    (calculateProductPrice product quantity true).discounts.getLast? =
      some { type := DiscountType.member
           , label := toString (5 : ℚ) ++ "% Member Discount"
           , percentage := 5
           , amount := round2 (priceAfterBulk product quantity * (5 / 100)) } := by
  rw [calculateProductPrice_eq]
  dsimp only
  have hmem : rawMemberDiscount product quantity true =
      priceAfterBulk product quantity * (MEMBER_DISCOUNT_PERCENTAGE / 100) := by
    unfold rawMemberDiscount applyMemberDiscount
    simp
  have hpos : 0 < rawMemberDiscount product quantity true := by
    rw [hmem]
    exact mul_pos h (by norm_num [MEMBER_DISCOUNT_PERCENTAGE])
  unfold memberDiscountEntries
  rw [if_pos hpos, hmem, List.getLast?_append_cons]
  rfl

/-- C5 witness: price $100, 10% product discount, quantity 3,
authenticated — the running price after product and bulk discounts is
243 > 0 and the last breakdown entry is the 5% member entry. -/
theorem C5_member_entry_witness :
    0 < priceAfterBulk ⟨100, some 10⟩ 3 ∧
    (calculateProductPrice ⟨100, some 10⟩ 3 true).discounts.getLast? =
      some { type := DiscountType.member
           , label := toString (5 : ℚ) ++ "% Member Discount"
           , percentage := 5
           , amount := round2 (priceAfterBulk ⟨100, some 10⟩ 3 * (5 / 100)) } := by
  have h : 0 < priceAfterBulk ⟨100, some 10⟩ 3 := by
    norm_num [priceAfterBulk, priceAfterProduct, rawBulkDiscount, rawProductDiscount,
      originalPriceOf, applyBulkDiscount, BULK_DISCOUNT_THRESHOLD, BULK_DISCOUNT_PERCENTAGE]
  exact ⟨h, C5_member_entry_amended ⟨100, some 10⟩ 3 h⟩

/-- C6: for every code string, order total (and clock reading),
`applyPromoCode` trims and uppercases the code, and returns exactly the
result of the five ordered checks — unknown code, inactive, expired,
usage limit, minimum order — where the FIRST failing check produces the
structured `valid = false` result (`applyPromoCodeSpec`); being a total
function into `PromoResult`, it never throws. -/
theorem C6_promo_validation_order (code : String) (orderTotal : ℚ) (now : ℚ) :
    applyPromoCode code orderTotal now = applyPromoCodeSpec code orderTotal now ∧
    (applyPromoCode code orderTotal now).code = jsToUpper (jsTrim code) := by
  simp only [applyPromoCode, applyPromoCodeSpec]
  cases hf : PROMO_CODES.find? (fun p => p.code == jsToUpper (jsTrim code)) with
  | none => exact ⟨rfl, rfl⟩
  | some promo =>
      constructor
      · by_cases hact : promo.active = false
        · simp [promoFailureChecks, hact, List.filterMap]
        · rcases he : promo.expires_at with _ | e <;>
            rcases hm : promo.max_uses with _ | m <;>
            rcases hmo : promo.min_order_amount with _ | mo <;>
            rcases hdt : promo.discount_type <;>
            simp only [promoFailureChecks, promoExpired, usageLimitReached, he, hm, hmo, hdt,
              hact, if_neg, if_false, decide_eq_true_eq, promoValidResult] <;>
            split_ifs <;>
            simp_all [List.filterMap, List.headD]
      · by_cases hact : promo.active = false
        · simp [hact]
        · rcases hmo : promo.min_order_amount with _ | mo <;>
            rcases hdt : promo.discount_type <;>
            simp only [hmo, hdt, hact, if_neg, if_false, promoValidResult] <;>
            split_ifs <;> rfl

/-- C7: for every product with non-negative price and (when present)
discount percentage within 0–100, every positive quantity and every
authentication flag, the `PricingResult` satisfies `finalPrice =
originalPrice − totalDiscount` exactly, all three values are fixed
points of two-decimal rounding, and `totalDiscount ≥ 0`. -/
theorem C7_pricing_invariants (product : Product) (quantity : ℕ) (isAuthenticated : Bool)
    (hprice : 0 ≤ product.price)
    (hdp : ∀ pct, product.discount_percentage = some pct → 0 ≤ pct ∧ pct ≤ 100)
    (_hq : 1 ≤ quantity) :
    (calculateProductPrice product quantity isAuthenticated).finalPrice =
        (calculateProductPrice product quantity isAuthenticated).originalPrice -
        (calculateProductPrice product quantity isAuthenticated).totalDiscount ∧
    0 ≤ (calculateProductPrice product quantity isAuthenticated).totalDiscount ∧
    round2 (calculateProductPrice product quantity isAuthenticated).originalPrice =
        (calculateProductPrice product quantity isAuthenticated).originalPrice ∧
    round2 (calculateProductPrice product quantity isAuthenticated).finalPrice =
        (calculateProductPrice product quantity isAuthenticated).finalPrice ∧
    round2 (calculateProductPrice product quantity isAuthenticated).totalDiscount =
        (calculateProductPrice product quantity isAuthenticated).totalDiscount := by
  rw [calculateProductPrice_eq]
  dsimp only
  have hle : priceAfterMember product quantity isAuthenticated ≤
      originalPriceOf product quantity :=
    le_trans (priceAfterMember_le product quantity isAuthenticated)
      (le_trans (priceAfterBulk_le product quantity)
        (priceAfterProduct_le product quantity hprice (fun pct h => (hdp pct h).1)))
  have hmono := round2_mono hle
  refine ⟨?_, ?_, round2_round2 _, round2_round2 _, round2_round2 _⟩
  · rw [round2_sub_round2]; ring
  · rw [round2_sub_round2]; linarith

/-- C7 witness: the invariants instantiated at price $100, 10% discount,
quantity 3, authenticated. -/
theorem C7_pricing_invariants_witness :
    0 ≤ (⟨100, some 10⟩ : Product).price ∧
    1 ≤ 3 ∧
    ((calculateProductPrice ⟨100, some 10⟩ 3 true).finalPrice =
        (calculateProductPrice ⟨100, some 10⟩ 3 true).originalPrice -
        (calculateProductPrice ⟨100, some 10⟩ 3 true).totalDiscount ∧
      0 ≤ (calculateProductPrice ⟨100, some 10⟩ 3 true).totalDiscount ∧
      round2 (calculateProductPrice ⟨100, some 10⟩ 3 true).originalPrice =
          (calculateProductPrice ⟨100, some 10⟩ 3 true).originalPrice ∧
      round2 (calculateProductPrice ⟨100, some 10⟩ 3 true).finalPrice =
          (calculateProductPrice ⟨100, some 10⟩ 3 true).finalPrice ∧
      round2 (calculateProductPrice ⟨100, some 10⟩ 3 true).totalDiscount =
          (calculateProductPrice ⟨100, some 10⟩ 3 true).totalDiscount) :=
  ⟨by norm_num, by norm_num,
    C7_pricing_invariants ⟨100, some 10⟩ 3 true (by norm_num)
      (by intro pct h; injection h with h2; rw [← h2]; norm_num) (by norm_num)⟩

end Neto

namespace Neto

/-- C8: for every total, `calculateShipping` reports free shipping with
cost 0 exactly when `total > 1000` (strict), else cost 15, always
surfacing the threshold 1000; in particular 1000.00 is not free and
1000.01 is. -/
theorem C8_shipping_threshold :
    (∀ total : ℚ, calculateShipping total =
      { cost := if 1000 < total then 0 else 15
      , isFreeShipping := decide (1000 < total)
      , freeShippingThreshold := 1000 }) ∧
    (calculateShipping 1000).isFreeShipping = false ∧
    (calculateShipping (1000.01 : ℚ)).isFreeShipping = true := by
  refine ⟨fun total => ?_, ?_, ?_⟩
  · simp [calculateShipping, FREE_SHIPPING_THRESHOLD, STANDARD_SHIPPING_COST]
  · norm_num [calculateShipping, FREE_SHIPPING_THRESHOLD]
  · norm_num [calculateShipping, FREE_SHIPPING_THRESHOLD]

/-- C9: `calculateCartSummary` is deterministic — two calls with equal
items, authentication flags, and promo codes return equal summaries,
even at different ambient clock readings (the only impure input the
source reads via `new Date()`); the embedded promo registry is a
constant the function never mutates. -/
theorem C9_cart_summary_deterministic (items₁ items₂ : List CartItem)
    (auth₁ auth₂ : Bool) (promo₁ promo₂ : Option String) (now₁ now₂ : ℚ)
    (hitems : items₁ = items₂) (hauth : auth₁ = auth₂) (hpromo : promo₁ = promo₂) :
    calculateCartSummary items₁ auth₁ promo₁ now₁ =
      calculateCartSummary items₂ auth₂ promo₂ now₂ := by
  subst hitems
  subst hauth
  subst hpromo
  simp only [calculateCartSummary]
  cases promo₁ with
  | none => rfl
  | some c =>
      by_cases hc : c = ""
      · simp [hc]
      · simp only [if_neg hc]
        rw [applyPromoCode_now_independent c _ now₁ now₂]

/-- C9 witness: two calls on an identical one-line cart with the SAVE10
promo, at clock readings 0 and 5, coincide. -/
theorem C9_cart_summary_deterministic_witness :
    calculateCartSummary [⟨⟨100, some 10⟩, 3⟩] true (some "SAVE10") 0 =
      calculateCartSummary [⟨⟨100, some 10⟩, 3⟩] true (some "SAVE10") 5 :=
  C9_cart_summary_deterministic [⟨⟨100, some 10⟩, 3⟩] [⟨⟨100, some 10⟩, 3⟩]
    true true (some "SAVE10") (some "SAVE10") 0 5 rfl rfl rfl

/-- C10: on an empty cart (any authentication flag, no promo code),
`calculateCartSummary` returns zero subtotal, zero discounted total,
zero tax, non-free shipping at the flat $15, item count 0, and a grand
total of 15 — the flat shipping fee is charged even for an empty cart. -/
theorem C10_empty_cart_flat_shipping (isAuthenticated : Bool) (now : ℚ) :
    (calculateCartSummary [] isAuthenticated none now).subtotal = 0 ∧
    (calculateCartSummary [] isAuthenticated none now).totalAfterDiscounts = 0 ∧
    (calculateCartSummary [] isAuthenticated none now).tax.amount = 0 ∧
    (calculateCartSummary [] isAuthenticated none now).shipping.cost = 15 ∧
    (calculateCartSummary [] isAuthenticated none now).shipping.isFreeShipping = false ∧
    (calculateCartSummary [] isAuthenticated none now).itemCount = 0 ∧
    (calculateCartSummary [] isAuthenticated none now).total = 15 := by
  norm_num [calculateCartSummary, calculateTax, calculateShipping, round2,
    DEFAULT_TAX_RATE, FREE_SHIPPING_THRESHOLD, STANDARD_SHIPPING_COST]

end Neto
